import Mathlib

/-!
Verification of the ASE/McStas orchestration notebook (`ase.ipynb`).

The repository is a single notebook that downloads a crystal structure, runs a
Quantum Espresso relaxation through ASE, exports the relaxed structure to a
reflection file, and assembles and runs a McStas instrument simulation.  This
file gives a shallow embedding of the orchestration logic of that notebook and
proves the stated properties about it.  Definitions marked `Modelled from the
spec` embed behaviour that lives in the external engines (ASE, McStas,
McStasScript, `os.makedirs`) rather than in the notebook itself.
-/

namespace AseNotebook

/-! Instrument initialization algebra, from the notebook cell

    Instr.append_initialize("wavevector = 2*PI/wavelength;")
    Instr.append_initialize("mono_theta = RAD2DEG*asin(0.5*mono_Q/wavevector);")

`PI` and `RAD2DEG` are the McStas C constants for π and 180/π. -/

/-- Embedding of `wavevector = 2*PI/wavelength;` from the initialize block of the
instrument. -/
noncomputable def wavevector (wavelength : ℝ) : ℝ := 2 * Real.pi / wavelength

/-- Embedding of `mono_theta = RAD2DEG*asin(0.5*mono_Q/wavevector);` from the
initialize block of the instrument; the result is in degrees. -/
noncomputable def mono_theta (wavelength mono_Q : ℝ) : ℝ :=
  (180 / Real.pi) * Real.arcsin (0.5 * mono_Q / wavevector wavelength)

/-! Numeric bounds on powers of π used to evaluate the Bragg angle. -/

lemma pi_sq_gt : (9.8696002 : ℝ) < Real.pi ^ 2 := by
  nlinarith [Real.pi_gt_d6, Real.pi_lt_d6]

lemma pi_sq_lt : Real.pi ^ 2 < (9.8696066 : ℝ) := by
  nlinarith [Real.pi_gt_d6, Real.pi_lt_d6]

lemma pi_pow4_gt : (97.409004 : ℝ) < Real.pi ^ 4 := by
  nlinarith [pi_sq_gt, sq_nonneg (Real.pi ^ 2 - 9.8696002)]

lemma pi_pow4_lt : Real.pi ^ 4 < (97.409135 : ℝ) := by
  nlinarith [pi_sq_lt, pi_sq_gt]

lemma pi_pow5_lt : Real.pi ^ 5 < (306.0199 : ℝ) := by
  nlinarith [pi_pow4_lt, pi_pow4_gt, Real.pi_lt_d6, Real.pi_gt_d6]

/-- Lower-side sine estimate: `sin (31π/300) < 1.0065/π`.  The left side is the
sine of 18.6 degrees in radians, the right side is `0.5*mono_Q/wavevector` at
the notebook's literal parameter values. -/
lemma sin_of_18_6_deg_lt : Real.sin (31 * Real.pi / 300) < 1.0065 / Real.pi := by
  have ha0 : (0 : ℝ) ≤ 31 * Real.pi / 300 := by positivity
  have ha_abs : |(31 * Real.pi / 300 : ℝ)| ≤ 1 := by
    rw [abs_of_nonneg ha0]
    nlinarith [Real.pi_lt_d6]
  have hb := Real.sin_bound ha_abs
  rw [abs_of_nonneg ha0] at hb
  have hsin_le : Real.sin (31 * Real.pi / 300) ≤
      (31 * Real.pi / 300 - (31 * Real.pi / 300) ^ 3 / 6) +
        (31 * Real.pi / 300) ^ 4 * (5 / 96) := by
    have h2 := (abs_le.mp hb).2
    linarith
  have hkey : (31 * Real.pi / 300 - (31 * Real.pi / 300) ^ 3 / 6) +
      (31 * Real.pi / 300) ^ 4 * (5 / 96) < 1.0065 / Real.pi := by
    rw [lt_div_iff Real.pi_pos]
    nlinarith [pi_sq_lt, pi_pow4_gt, pi_pow5_lt, pi_sq_gt, pi_pow4_lt]
  linarith

/-- Upper-side sine estimate: `1.0065/π < sin (47π/450)`.  The right side is the
sine of 18.8 degrees in radians. -/
lemma sin_of_18_8_deg_gt : 1.0065 / Real.pi < Real.sin (47 * Real.pi / 450) := by
  have hb0 : (0 : ℝ) ≤ 47 * Real.pi / 450 := by positivity
  have hb_abs : |(47 * Real.pi / 450 : ℝ)| ≤ 1 := by
    rw [abs_of_nonneg hb0]
    nlinarith [Real.pi_lt_d6]
  have hb := Real.sin_bound hb_abs
  rw [abs_of_nonneg hb0] at hb
  have hsin_ge : (47 * Real.pi / 450 - (47 * Real.pi / 450) ^ 3 / 6) -
      (47 * Real.pi / 450) ^ 4 * (5 / 96) ≤ Real.sin (47 * Real.pi / 450) := by
    have h1 := (abs_le.mp hb).1
    linarith
  have hkey : 1.0065 / Real.pi < (47 * Real.pi / 450 - (47 * Real.pi / 450) ^ 3 / 6) -
      (47 * Real.pi / 450) ^ 4 * (5 / 96) := by
    rw [div_lt_iff Real.pi_pos]
    nlinarith [pi_sq_lt, pi_pow4_gt, pi_pow5_lt, pi_sq_gt, pi_pow4_lt]
  linarith

/-- The argument of `asin` at the notebook's literal values: with wavelength 1.2
and mono_Q 3.355, `0.5*mono_Q/wavevector = 1.0065/π`. -/
lemma asin_arg_eq : (0.5 * 3.355 / wavevector 1.2 : ℝ) = 1.0065 / Real.pi := by
  unfold wavevector
  rw [div_eq_div_iff (by positivity) Real.pi_ne_zero]
  ring

lemma asin_arg_le_one : (1.0065 / Real.pi : ℝ) ≤ 1 := by
  rw [div_le_one Real.pi_pos]
  nlinarith [Real.pi_gt_d6]

lemma asin_arg_pos : (0 : ℝ) < 1.0065 / Real.pi := by positivity

/-- The Bragg angle computed by the initialize block at the notebook's literal
values exceeds 18.6 degrees. -/
lemma mono_theta_gt_18_6 : (18.6 : ℝ) < mono_theta 1.2 3.355 := by
  have ha0 : (0 : ℝ) ≤ 31 * Real.pi / 300 := by positivity
  have ha2 : (31 * Real.pi / 300 : ℝ) ≤ Real.pi / 2 := by
    nlinarith [Real.pi_pos]
  have hmono : Real.arcsin (Real.sin (31 * Real.pi / 300)) <
      Real.arcsin (1.0065 / Real.pi) := by
    apply Real.strictMonoOn_arcsin
    · exact ⟨Real.neg_one_le_sin _, Real.sin_le_one _⟩
    · exact ⟨by linarith [asin_arg_pos], asin_arg_le_one⟩
    · exact sin_of_18_6_deg_lt
  rw [Real.arcsin_sin (by linarith [Real.pi_pos]) ha2] at hmono
  have hdeg : (18.6 : ℝ) = (180 / Real.pi) * (31 * Real.pi / 300) := by
    field_simp
    ring
  have hpos : (0 : ℝ) < 180 / Real.pi := by positivity
  calc (18.6 : ℝ) = (180 / Real.pi) * (31 * Real.pi / 300) := hdeg
    _ < (180 / Real.pi) * Real.arcsin (1.0065 / Real.pi) :=
        mul_lt_mul_of_pos_left hmono hpos
    _ = mono_theta 1.2 3.355 := by rw [mono_theta, asin_arg_eq]

/-- The Bragg angle computed by the initialize block at the notebook's literal
values is below 18.8 degrees. -/
lemma mono_theta_lt_18_8 : mono_theta 1.2 3.355 < (18.8 : ℝ) := by
  have hb0 : (0 : ℝ) ≤ 47 * Real.pi / 450 := by positivity
  have hb2 : (47 * Real.pi / 450 : ℝ) ≤ Real.pi / 2 := by
    nlinarith [Real.pi_pos]
  have hmono : Real.arcsin (1.0065 / Real.pi) <
      Real.arcsin (Real.sin (47 * Real.pi / 450)) := by
    apply Real.strictMonoOn_arcsin
    · exact ⟨by linarith [asin_arg_pos], asin_arg_le_one⟩
    · exact ⟨Real.neg_one_le_sin _, Real.sin_le_one _⟩
    · exact sin_of_18_8_deg_gt
  rw [Real.arcsin_sin (by linarith [Real.pi_pos]) hb2] at hmono
  have hdeg : (180 / Real.pi) * (47 * Real.pi / 450) = (18.8 : ℝ) := by
    field_simp
    ring
  have hpos : (0 : ℝ) < 180 / Real.pi := by positivity
  calc mono_theta 1.2 3.355 = (180 / Real.pi) * Real.arcsin (1.0065 / Real.pi) := by
        rw [mono_theta, asin_arg_eq]
    _ < (180 / Real.pi) * (47 * Real.pi / 450) := mul_lt_mul_of_pos_left hmono hpos
    _ = (18.8 : ℝ) := hdeg

/-- Claim C1 (counterexample): at the notebook's literal inputs (wavelength
1.2 Å, mono_Q 3.355 Å⁻¹) the computed monochromator tilt angle is not ≈ 18.4°:
it differs from 18.4 by more than 0.2 (the true value is ≈ 18.69°). -/
theorem C1_counterexample : ¬ (|mono_theta 1.2 3.355 - 18.4| < 1 / 5) := by
  intro hlt
  rw [abs_lt] at hlt
  have := mono_theta_gt_18_6
  linarith [hlt.2]

/-- Claim C1 (amended): the monochromator tilt angle computed at instrument
initialization equals the closed-form Bragg relation angle = arcsin(Q/(2k)) with
k = 2π/λ; for the literal inputs λ = 1.2 Å and Q = 3.355 Å⁻¹ the computed
wavevector is ≈ 5.236 Å⁻¹ and the computed angle is ≈ 18.7° (not 18.4°). -/
theorem C1_bragg_angle_amended :
    mono_theta 1.2 3.355 = (180 / Real.pi) * Real.arcsin (3.355 / (2 * wavevector 1.2))
    ∧ |wavevector 1.2 - 5.236| < 1 / 1000
    ∧ |mono_theta 1.2 3.355 - 18.7| < 1 / 10 := by
  refine ⟨?_, ?_, ?_⟩
  · rw [mono_theta]
    have harg : (0.5 * 3.355 / wavevector 1.2 : ℝ) = 3.355 / (2 * wavevector 1.2) := by
      unfold wavevector
      rw [div_eq_div_iff (by positivity) (by positivity)]
      ring
    rw [harg]
  · have hval : (wavevector 1.2 : ℝ) = 5 * Real.pi / 3 := by
      unfold wavevector
      rw [div_eq_div_iff (by norm_num) (by norm_num)]
      ring
    rw [abs_lt, hval]
    constructor
    · linarith [Real.pi_gt_d6]
    · linarith [Real.pi_lt_d6]
  · rw [abs_lt]
    exact ⟨by linarith [mono_theta_gt_18_6], by linarith [mono_theta_lt_18_8]⟩

/-! Pseudopotential download cell.  The Python variable `pseudopotfile` is first
assigned the Quantum-Espresso-archive file name, both files are downloaded, and
the variable is then reassigned to the GitHub-archive file name; the Espresso
configuration cell evaluates `pseudopotentials={'N': pseudopotfile}` afterwards. -/

/-- First download URL of the cell, built from the initial value of
`pseudopotfile` (official Quantum Espresso archive). -/
def qe_pseudo_url : String :=
  "https://www.quantum-espresso.org/upf_files/" ++ "N.pbe-n-kjpaw_psl.1.0.0.UPF"

/-- Second download URL of the cell (GitHub raw archive). -/
def github_pseudo_url : String :=
  "https://raw.githubusercontent.com/PaNOSC-ViNYL/workshop2020/team2/demo/team2/N.pbe-n-radius_5.UPF"

/-- The two pseudopotential files in download order: first the file fetched from
the official Quantum Espresso archive, second the file fetched from the GitHub
archive. -/
def downloadedPseudos : List String :=
  ["N.pbe-n-kjpaw_psl.1.0.0.UPF", "N.pbe-n-radius_5.UPF"]

/-- Value of the Python variable `pseudopotfile` when the Espresso configuration
cell runs: the cell assigns it 'N.pbe-n-kjpaw_psl.1.0.0.UPF', downloads both
files, then reassigns it to 'N.pbe-n-radius_5.UPF'.  The reassignment is
embedded as a shadowing `let`. -/
def pseudopotfile : String :=
  let p := "N.pbe-n-kjpaw_psl.1.0.0.UPF"
  let p := "N.pbe-n-radius_5.UPF"
  p

/-- Embedding of `pseudopotentials={'N': pseudopotfile}` from the Espresso
configuration cell. -/
def pseudopotentials : List (String × String) := [("N", pseudopotfile)]

/-- Claim C10: the solver configuration's pseudopotential mapping for nitrogen
refers to the second downloaded pseudopotential file 'N.pbe-n-radius_5.UPF'
(the GitHub one); the first downloaded file 'N.pbe-n-kjpaw_psl.1.0.0.UPF' (from
the official Quantum Espresso archive) is never referenced by the solver
configuration. -/
theorem C10_pseudopotential_mapping :
    pseudopotentials.lookup "N" = some "N.pbe-n-radius_5.UPF"
    ∧ downloadedPseudos.get? 1 = some pseudopotfile
    ∧ downloadedPseudos.get? 0 = some "N.pbe-n-kjpaw_psl.1.0.0.UPF"
    ∧ pseudopotentials.all (fun e => e.2 != "N.pbe-n-kjpaw_psl.1.0.0.UPF") = true
    ∧ qe_pseudo_url =
        "https://www.quantum-espresso.org/upf_files/" ++ "N.pbe-n-kjpaw_psl.1.0.0.UPF"
    ∧ github_pseudo_url =
        "https://raw.githubusercontent.com/PaNOSC-ViNYL/workshop2020/team2/demo/team2/N.pbe-n-radius_5.UPF" :=
  ⟨rfl, rfl, rfl, rfl, rfl, rfl⟩

/-! Workspace preparation: `os.makedirs(tmpdir, exist_ok=True)`,
`os.chdir(tmpdir)`, `os.makedirs(mcstas_outdir, exist_ok=True)` (relative to
`tmpdir` after the chdir), and later `os.makedirs(pseudo_dir, exist_ok=True)`. -/

/-- A directory tree: association list from directory path to its contents. -/
abbrev DirTree := List (String × List String)

/-- Whether a directory exists in the tree. -/
def hasDir (fs : DirTree) (d : String) : Bool := fs.any (fun e => e.1 == d)

/-- Embedding of `os.makedirs(d, exist_ok=True)` (Python semantics with
`exist_ok=True`): creates the directory when absent; when it already exists the
call succeeds and leaves the directory and its contents untouched. -/
def makedirs (fs : DirTree) (d : String) : DirTree :=
  if hasDir fs d then fs else fs ++ [(d, [])]

/-- Embedding of `tmpdir='/tmp/jupiter/'`. -/
def tmpdir : String := "/tmp/jupiter/"

/-- Absolute path of `mcstas_outdir = "mcstas_output"`, created relative to the
working directory after `os.chdir(tmpdir)`. -/
def mcstas_outdir_abs : String := "/tmp/jupiter/mcstas_output"

/-- Embedding of `pseudo_dir = tmpdir+"/pseudo/"` (note the doubled slash,
exactly as the notebook builds it). -/
def pseudo_dir : String := "/tmp/jupiter//pseudo/"

/-- The directory-creation steps of the workspace-preparation stage, in
notebook order. -/
def prepareWorkspace (fs : DirTree) : DirTree :=
  makedirs (makedirs (makedirs fs tmpdir) mcstas_outdir_abs) pseudo_dir

lemma mem_makedirs {fs : DirTree} {e : String × List String} (d : String)
    (h : e ∈ fs) : e ∈ makedirs fs d := by
  unfold makedirs
  split
  · exact h
  · exact List.mem_append_left _ h

lemma hasDir_makedirs_self (fs : DirTree) (d : String) :
    hasDir (makedirs fs d) d = true := by
  unfold makedirs
  split
  · assumption
  · simp [hasDir]

lemma hasDir_makedirs_mono {fs : DirTree} {d : String} (d' : String)
    (h : hasDir fs d = true) : hasDir (makedirs fs d') d = true := by
  unfold makedirs
  split
  · exact h
  · unfold hasDir at h ⊢
    rw [List.any_append, h, Bool.true_or]

lemma makedirs_of_hasDir {fs : DirTree} {d : String}
    (h : hasDir fs d = true) : makedirs fs d = fs := by
  unfold makedirs
  rw [h]
  simp

/-- Claim C9: workspace preparation is idempotent: each `os.makedirs(...,
exist_ok=True)` step succeeds when the target directory already exists and
leaves existing contents in place, so running the preparation stage twice has
the same effect as running it once. -/
theorem C9_prepare_idempotent (fs : DirTree) :
    prepareWorkspace (prepareWorkspace fs) = prepareWorkspace fs
    ∧ ∀ e, e ∈ fs → e ∈ prepareWorkspace fs := by
  constructor
  · unfold prepareWorkspace
    have h1 : hasDir (makedirs (makedirs (makedirs fs tmpdir) mcstas_outdir_abs) pseudo_dir)
        tmpdir = true :=
      hasDir_makedirs_mono _ (hasDir_makedirs_mono _ (hasDir_makedirs_self fs tmpdir))
    rw [makedirs_of_hasDir h1]
    have h2 : hasDir (makedirs (makedirs (makedirs fs tmpdir) mcstas_outdir_abs) pseudo_dir)
        mcstas_outdir_abs = true :=
      hasDir_makedirs_mono _ (hasDir_makedirs_self _ mcstas_outdir_abs)
    rw [makedirs_of_hasDir h2]
    exact makedirs_of_hasDir (hasDir_makedirs_self _ pseudo_dir)
  · intro e he
    exact mem_makedirs _ (mem_makedirs _ (mem_makedirs _ he))

/-- Witness for claim C9 at a concrete directory tree with pre-existing
contents. -/
theorem C9_witness :
    prepareWorkspace (prepareWorkspace [("/tmp/jupiter/", ["old.txt"])]) =
      prepareWorkspace [("/tmp/jupiter/", ["old.txt"])]
    ∧ ("/tmp/jupiter/", ["old.txt"]) ∈ prepareWorkspace [("/tmp/jupiter/", ["old.txt"])] :=
  ⟨(C9_prepare_idempotent [("/tmp/jupiter/", ["old.txt"])]).1,
   (C9_prepare_idempotent [("/tmp/jupiter/", ["old.txt"])]).2 _ (by decide)⟩

/-! Post-relaxation position diff, from the notebook cell

    atomsOUT = io.read('espresso.pwo',index=-1)
    atomsOUT.get_positions() - atom.get_positions() -/

/-- A 3-component position vector with rational coordinates (one row of a
`get_positions()` array). -/
abbrev Vec3 := ℚ × ℚ × ℚ

/-- Componentwise vector difference (one row of the NumPy elementwise array
subtraction). -/
def vsub (a b : Vec3) : Vec3 := (a.1 - b.1, a.2.1 - b.2.1, a.2.2 - b.2.2)

/-- Componentwise vector sum. -/
def vadd (a b : Vec3) : Vec3 := (a.1 + b.1, a.2.1 + b.2.1, a.2.2 + b.2.2)

/-- State of the relaxation workflow when the diff cell runs.  `atomPositions`
are the positions held by the `atom` object: they are the positions parsed from
the CIF file, because the ASE Espresso file-calculator does not move the atoms
of its input object (the relaxed geometry exists only in `espresso.pwo`), which
is why the notebook re-reads that file.  `pwoLastPositions` is the last ionic
configuration of `espresso.pwo`, selected by `io.read(..., index=-1)`. -/
structure RelaxState where
  atomPositions : List Vec3
  pwoLastPositions : List Vec3

/-- Embedding of `atomsOUT.get_positions() - atom.get_positions()`: NumPy
elementwise row-by-row difference. -/
def positionsDiff (s : RelaxState) : List Vec3 :=
  List.zipWith vsub s.pwoLastPositions s.atomPositions

lemma zipWith_getElem?_some {α β γ : Type} (f : α → β → γ) :
    ∀ (l1 : List α) (l2 : List β) (i : ℕ) (a : α) (b : β),
      l1[i]? = some a → l2[i]? = some b →
      (List.zipWith f l1 l2)[i]? = some (f a b)
  | x :: t1, y :: t2, 0, a, b, h1, h2 => by
    simp at h1 h2
    simp [h1, h2]
  | x :: t1, y :: t2, i + 1, a, b, h1, h2 => by
    simp at h1 h2
    simpa using zipWith_getElem?_some f t1 t2 i a b h1 h2
  | [], _, i, a, b, h1, h2 => by simp at h1
  | x :: t1, [], i, a, b, h1, h2 => by simp at h2

/-- Claim C2: the post-relaxation diff returns the elementwise difference
between the positions after the solver ran (`espresso.pwo`, last configuration)
and the positions before the solver ran (those still stored on `atom`), with
the same atom ordering: row i of the result is the displacement of atom i
produced by the relaxation. -/
theorem C2_diff_is_displacement (s : RelaxState)
    (h : s.pwoLastPositions.length = s.atomPositions.length) :
    (positionsDiff s).length = s.atomPositions.length
    ∧ ∀ (i : ℕ) (after before : Vec3), s.pwoLastPositions[i]? = some after →
        s.atomPositions[i]? = some before →
        (positionsDiff s)[i]? = some (vsub after before) := by
  constructor
  · unfold positionsDiff
    rw [List.length_zipWith, h, min_self]
  · intro i after before h1 h2
    exact zipWith_getElem?_some vsub _ _ i after before h1 h2

/-- Witness for claim C2 at a concrete two-atom relaxation state. -/
theorem C2_witness :
    (positionsDiff ⟨[(0, 0, 0), (1, 1, 1)], [(1, 2, 3), (1, 1, 2)]⟩).length =
      ([(0, 0, 0), (1, 1, 1)] : List Vec3).length
    ∧ (positionsDiff ⟨[(0, 0, 0), (1, 1, 1)], [(1, 2, 3), (1, 1, 2)]⟩)[1]? =
        some (vsub (1, 1, 2) (1, 1, 1)) :=
  ⟨(C2_diff_is_displacement ⟨[(0, 0, 0), (1, 1, 1)], [(1, 2, 3), (1, 1, 2)]⟩ (by decide)).1,
   (C2_diff_is_displacement ⟨[(0, 0, 0), (1, 1, 1)], [(1, 2, 3), (1, 1, 2)]⟩ (by decide)).2
     1 (1, 1, 2) (1, 1, 1) (by decide) (by decide)⟩

/-! Sequential orchestration of the notebook, from the downloads to the
simulation run.  Cells execute in order; external processes are started with
`os.system` (whose exit status the notebook never inspects) or through blocking
library calls. -/

/-- External-world environment of one notebook run: reachability of the
download sites, what the solver run left in `espresso.pwo`, and whether the
`cif2hkl` utility managed to produce the reflection file. -/
structure Env where
  netUp : Bool
  pwoConverged : Bool
  pwoEnergy : ℚ
  pwoFermi : ℚ
  pwoLastPositions : List Vec3
  cif2hklOk : Bool
  deriving DecidableEq

/-- Observable state threaded through the workflow: the files present in the
scratch directory and the log of external programs invoked, in order. -/
structure WState where
  files : List String
  invoked : List String
  deriving DecidableEq

/-- Scratch directory before the downloads. -/
def initState : WState := ⟨[], []⟩

/-- Python exceptions that abort the notebook run. -/
inductive PyErr where
  | fileNotFound (path : String)
  deriving DecidableEq

/-- The values the notebook consumes from a completed run. -/
structure RunResult where
  potentialEnergy : ℚ
  fermiLevel : ℚ
  relaxedPositions : List Vec3
  deriving DecidableEq

/-- Embedding of `os.system("wget -c https://www.crystallography.net/cod/" +
CIF_file)`: wget is invoked once; the notebook ignores the returned exit
status, so this step never raises; on network failure no file appears. -/
def stepFetchCIF (env : Env) (s : WState) : WState :=
  { files := if env.netUp then s.files ++ ["1527603.cif"] else s.files,
    invoked := s.invoked ++ ["wget 1527603.cif"] }

/-- Embedding of the two pseudopotential `os.system("wget -c ...")` calls;
again the exit statuses are ignored and the step never raises. -/
def stepFetchPseudos (env : Env) (s : WState) : WState :=
  { files := if env.netUp then
        s.files ++ ["N.pbe-n-kjpaw_psl.1.0.0.UPF", "N.pbe-n-radius_5.UPF"]
      else s.files,
    invoked := s.invoked ++
      ["wget N.pbe-n-kjpaw_psl.1.0.0.UPF", "wget N.pbe-n-radius_5.UPF"] }

/-- Embedding of `atomCIF = io.read(CIF_file)`: the reader raises a
file-not-found error when the downloaded structure file is absent. -/
def stepReadCIF (s : WState) : Except PyErr WState :=
  if s.files.contains "1527603.cif" then Except.ok s
  else Except.error (PyErr.fileNotFound "1527603.cif")

/-- Embedding of `potential_energy = atom.get_potential_energy()` and
`fermi_level = calc.get_fermi_level()`: runs `pw.x`, which writes
`espresso.pwi` and `espresso.pwo`.  When the ionic relaxation does not converge
within its step limit, `pw.x` still terminates normally and writes the
partially relaxed geometry; the ASE binding parses the last energy of
`espresso.pwo` without any convergence check, and the notebook consumes the
parsed numbers unconditionally — no branch of the notebook inspects
`env.pwoConverged`. -/
def stepSolve (env : Env) (s : WState) : WState × ℚ × ℚ :=
  ({ files := s.files ++ ["espresso.pwi", "espresso.pwo"],
     invoked := s.invoked ++ ["pw.x"] },
   env.pwoEnergy, env.pwoFermi)

/-- Embedding of `atomsOUT = io.read('espresso.pwo', index=-1)`: reads the last
ionic configuration of the solver output, converged or not. -/
def stepReadPwo (env : Env) (s : WState) : Except PyErr (List Vec3) :=
  if s.files.contains "espresso.pwo" then Except.ok env.pwoLastPositions
  else Except.error (PyErr.fileNotFound "espresso.pwo")

/-- Embedding of `io.write(ase_outfile, atom)`: writes `output.cif`, silently
overwriting any existing file. -/
def stepWriteCIF (s : WState) : WState :=
  { s with files := s.files ++ ["output.cif"] }

/-- Embedding of `os.system('cif2hkl ' + ase_outfile)`: the exit status is
ignored; on success the reflection file `output.cif.hkl` appears. -/
def stepCif2hkl (env : Env) (s : WState) : WState :=
  { files := if env.cif2hklOk then s.files ++ ["output.cif.hkl"] else s.files,
    invoked := s.invoked ++ ["cif2hkl output.cif"] }

/-- Embedding of `Instr.run_full_instrument(ncount=5E6, mpi=4,
foldername=mcstas_outdir, increment_folder_name=True)`: the engine is started
unconditionally — the notebook performs no check that the reflection file
exists or is non-empty before starting it. -/
def stepSimulate (s : WState) : WState :=
  { s with invoked := s.invoked ++ ["mcrun powder_diffractometer"] }

/-- The notebook's orchestration in cell order.  The result pairs the final
observable state (files present, external invocations in order) with either
the Python exception that aborted the run or the values the notebook
consumed. -/
def runWorkflow (env : Env) : WState × Except PyErr RunResult :=
  let s1 := stepFetchCIF env initState
  let s2 := stepFetchPseudos env s1
  match stepReadCIF s2 with
  | Except.error e => (s2, Except.error e)
  | Except.ok s3 =>
    match stepSolve env s3 with
    | (s4, energy, fermi) =>
      match stepReadPwo env s4 with
      | Except.error e => (s4, Except.error e)
      | Except.ok positions =>
        let s5 := stepWriteCIF s4
        let s6 := stepCif2hkl env s5
        let s7 := stepSimulate s6
        (s7, Except.ok { potentialEnergy := energy, fermiLevel := fermi,
                         relaxedPositions := positions })

/-- Environment of a run whose ionic relaxation never converges: the network
and all external tools work, but `espresso.pwo` records a non-converged
relaxation. -/
def envNonConverged : Env :=
  { netUp := true, pwoConverged := false, pwoEnergy := -2741/10, pwoFermi := 71/10,
    pwoLastPositions := [(0, 0, 0), (1/2, 1/2, 1/2)], cif2hklOk := true }

/-- Environment of a run in which `cif2hkl` fails (for example the utility is
missing), so no reflection file is produced. -/
def envNoHkl : Env :=
  { netUp := true, pwoConverged := true, pwoEnergy := -2741/10, pwoFermi := 71/10,
    pwoLastPositions := [(0, 0, 0), (1/2, 1/2, 1/2)], cif2hklOk := false }

/-- Environment of a run with the download sites unreachable. -/
def envNetDown : Env :=
  { netUp := false, pwoConverged := true, pwoEnergy := 0, pwoFermi := 0,
    pwoLastPositions := [], cif2hklOk := true }

/-- Claim C3 (failing-input evidence): the workflow never distinguishes a
non-converged solver run from a converged one — the run outcome is literally
independent of the convergence recorded in `espresso.pwo` — and on the
concrete non-converged environment the run completes as a success whose scalar
outputs and relaxed positions are the values parsed from the non-converged
output. -/
theorem C3_nonconverged_treated_as_success :
    (∀ env : Env, runWorkflow { env with pwoConverged := false } =
        runWorkflow { env with pwoConverged := true })
    ∧ envNonConverged.pwoConverged = false
    ∧ (runWorkflow envNonConverged).2 =
        Except.ok { potentialEnergy := -2741/10, fermiLevel := 71/10,
                    relaxedPositions := [(0, 0, 0), (1/2, 1/2, 1/2)] } := by
  refine ⟨fun env => rfl, rfl, rfl⟩

/-- Claim C4 (failing-input evidence): when `cif2hkl` fails, the reflection
file `output.cif.hkl` does not exist at simulation time, yet the Monte Carlo
engine is invoked anyway — the workflow does not fail fast. -/
theorem C4_engine_runs_without_reflection_file :
    (runWorkflow envNoHkl).1.files.contains "output.cif.hkl" = false
    ∧ (runWorkflow envNoHkl).1.invoked.contains "mcrun powder_diffractometer" = true := by
  exact ⟨by decide, by decide⟩

/-- Claim C6 (counterexample): with the network unreachable, the structure
fetch does not abort the workflow at that step: both pseudopotential downloads
still execute after the failed structure download, and the run aborts only
later, at the structure-read step, with a file-not-found error. -/
theorem C6_counterexample :
    (runWorkflow envNetDown).1.invoked =
      ["wget 1527603.cif", "wget N.pbe-n-kjpaw_psl.1.0.0.UPF",
       "wget N.pbe-n-radius_5.UPF"]
    ∧ (runWorkflow envNetDown).2 = Except.error (PyErr.fileNotFound "1527603.cif") := by
  exact ⟨by decide, rfl⟩

/-- Claim C6 (amended): if the network download of the structure file is
unreachable, wget fails but the fetch step itself does not detect it (its exit
status is ignored and no retry is attempted — wget runs exactly once for the
structure file); the workflow proceeds and aborts at the structure-read step
with a file-not-found error, so neither the solver nor the simulation engine
ever runs. -/
theorem C6_amended_abort_at_read_step :
    (runWorkflow envNetDown).1.invoked.count "wget 1527603.cif" = 1
    ∧ (runWorkflow envNetDown).2 = Except.error (PyErr.fileNotFound "1527603.cif")
    ∧ (runWorkflow envNetDown).1.invoked.contains "pw.x" = false
    ∧ (runWorkflow envNetDown).1.invoked.contains "mcrun powder_diffractometer" = false := by
  refine ⟨by decide, rfl, by decide, by decide⟩

/-! Instrument assembly and relative component placement. -/

/-- One instrument component as assembled by `Instr.add_component`: its name,
its McStas type, its `AT` offset, and the optional `RELATIVE` reference. -/
structure Component where
  name : String
  typ : String
  at_offset : Vec3
  relativeTo : Option String

/-- The notebook's powder diffractometer: the components added in cell order
with their `AT` offsets and `RELATIVE` references (the monitor is added with
no `AT`, which defaults to the origin of its reference). -/
def powderDiffractometer : List Component :=
  [⟨"Source", "Source_Maxwell_3", (0, 0, 0), none⟩,
   ⟨"guide", "Guide_gravity", (0, 0, 3), some "Source"⟩,
   ⟨"guide_end", "Arm", (0, 0, 10), some "guide"⟩,
   ⟨"mono_pos", "Arm", (0, 0, 1/5), some "guide_end"⟩,
   ⟨"mono", "Monochromator_curved", (0, 0, 0), some "mono_pos"⟩,
   ⟨"mono_out", "Arm", (0, 0, 0), some "mono"⟩,
   ⟨"L_mon", "L_monitor", (0, 0, 1), some "mono_out"⟩,
   ⟨"sample", "PowderN", (0, 0, 3/2), some "mono_out"⟩,
   ⟨"monitor", "Monitor_nD", (0, 0, 0), some "sample"⟩]

/-- Modelled from the spec: resolution of relative placements is deferred to
the simulation engine and "must fail (not silently default) when referencing an
undeclared component name".  The engine walks the component sequence in order,
resolving each `RELATIVE` reference against the components already placed; an
unresolvable reference makes the whole resolution fail.  This code is not under
src (it runs inside McStas); it follows the spec's words. -/
def resolveGo : List Component → List (String × Vec3) → Option (List (String × Vec3))
  | [], acc => some acc
  | c :: rest, acc =>
    match c.relativeTo with
    | none => resolveGo rest (acc ++ [(c.name, c.at_offset)])
    | some r =>
      match acc.lookup r with
      | none => none
      | some p => resolveGo rest (acc ++ [(c.name, vadd p c.at_offset)])

/-- Resolution of a whole instrument, starting from no placed components. -/
def resolvePlacements (cs : List Component) : Option (List (String × Vec3)) :=
  resolveGo cs []

lemma lookup_none_of_not_fst {β : Type} :
    ∀ (l : List (String × β)) (r : String), r ∉ l.map Prod.fst → l.lookup r = none
  | [], _, _ => rfl
  | (k, v) :: t, r, h => by
    have hne : r ≠ k := fun he => h (by simp [he])
    have hbeq : (r == k) = false := beq_eq_false_iff_ne.mpr hne
    have ht : r ∉ t.map Prod.fst := fun hm => h (by simp [hm])
    simp only [List.lookup, hbeq]
    exact lookup_none_of_not_fst t r ht

lemma resolveGo_fails :
    ∀ (pre : List Component) (acc : List (String × Vec3)) (c : Component)
      (post : List Component) (r : String),
      c.relativeTo = some r → r ∉ acc.map Prod.fst → r ∉ pre.map Component.name →
      resolveGo (pre ++ c :: post) acc = none
  | [], acc, c, post, r, hrel, hacc, _ => by
    simp only [List.nil_append, resolveGo, hrel, lookup_none_of_not_fst acc r hacc]
  | p :: pre, acc, c, post, r, hrel, hacc, hpre => by
    have hr_ne : r ≠ p.name := fun h => hpre (by simp [h])
    have hpre' : r ∉ pre.map Component.name := fun h => hpre (by simp [h])
    show resolveGo (p :: (pre ++ c :: post)) acc = none
    cases hp : p.relativeTo with
    | none =>
      have hacc' : r ∉ (acc ++ [(p.name, p.at_offset)]).map Prod.fst := by
        rw [List.map_append, List.mem_append]
        rintro (h1 | h2)
        · exact hacc h1
        · simp at h2
          exact hr_ne h2
      simp only [resolveGo, hp]
      exact resolveGo_fails pre _ c post r hrel hacc' hpre'
    | some r' =>
      cases hl : acc.lookup r' with
      | none => simp only [resolveGo, hp, hl]
      | some pos =>
        have hacc' : r ∉ (acc ++ [(p.name, vadd pos p.at_offset)]).map Prod.fst := by
          rw [List.map_append, List.mem_append]
          rintro (h1 | h2)
          · exact hacc h1
          · simp at h2
            exact hr_ne h2
        simp only [resolveGo, hp, hl]
        exact resolveGo_fails pre _ c post r hrel hacc' hpre'

/-- The notebook's own instrument resolves: every `RELATIVE` reference in the
powder diffractometer names an earlier component. -/
lemma powderDiffractometer_resolves :
    (resolvePlacements powderDiffractometer).isSome = true := by
  simp only [resolvePlacements, powderDiffractometer, resolveGo, List.lookup,
    Option.isSome, vadd]
  rfl

/-- Claim C5: for every component added with a relative position or orientation
spec, resolving a reference to a component name that was not declared earlier
fails — resolution of the instrument yields no placement at all — rather than
silently defaulting to some placement. -/
theorem C5_undeclared_reference_fails (pre : List Component) (c : Component)
    (post : List Component) (r : String) (hrel : c.relativeTo = some r)
    (hundecl : r ∉ pre.map Component.name) :
    resolvePlacements (pre ++ c :: post) = none :=
  resolveGo_fails pre [] c post r hrel (by simp) hundecl

/-- Witness for claim C5: a `monitor` component placed `RELATIVE` to the name
`sample` with no such component declared before it fails to resolve. -/
theorem C5_witness :
    resolvePlacements [⟨"monitor", "Monitor_nD", (0, 0, 0), some "sample"⟩] = none :=
  C5_undeclared_reference_fails [] ⟨"monitor", "Monitor_nD", (0, 0, 0), some "sample"⟩
    [] "sample" rfl (by simp)

/-! Structure write/read round trip. -/

/-- Modelled from the spec: the writer of the interchange (CIF) format
serializes each coordinate as a fixed-precision decimal — here six decimal
places, `round (q * 10^6)` — and the reader parses the stored decimal back
exactly.  The adapter itself is external (ASE `io.write`/`io.read`); the spec
requires the round trip to be "idempotent on atomic positions within
floating-point tolerance", and the tolerance here is half an ulp of the written
precision. -/
def writeCoord (q : ℚ) : ℤ := round (q * 1000000)

/-- Parse a stored fixed-precision decimal back into a rational. -/
def readCoord (z : ℤ) : ℚ := (z : ℚ) / 1000000

/-- Serialize all atomic positions of a structure in order. -/
def writeStructure (ps : List Vec3) : List (ℤ × ℤ × ℤ) :=
  ps.map (fun p => (writeCoord p.1, writeCoord p.2.1, writeCoord p.2.2))

/-- Parse all stored positions in order. -/
def readStructure (f : List (ℤ × ℤ × ℤ)) : List Vec3 :=
  f.map (fun e => (readCoord e.1, readCoord e.2.1, readCoord e.2.2))

lemma readCoord_writeCoord (q : ℚ) : |readCoord (writeCoord q) - q| ≤ 1 / 2000000 := by
  have h : |q * 1000000 - ((writeCoord q : ℚ))| ≤ 1 / 2 := abs_sub_round (q * 1000000)
  have heq : readCoord (writeCoord q) - q =
      -(q * 1000000 - ((writeCoord q : ℚ))) / 1000000 := by
    unfold readCoord
    ring
  rw [heq, abs_div, abs_neg]
  have habs : |(1000000 : ℚ)| = 1000000 := by norm_num
  rw [habs, div_le_iff (by norm_num : (0 : ℚ) < 1000000)]
  calc |q * 1000000 - ((writeCoord q : ℚ))| ≤ 1 / 2 := h
    _ = 1 / 2000000 * 1000000 := by norm_num

/-- Claim C7: writing a structure to a file and re-reading it yields a
structure with the same number of atoms in the same order whose positions equal
the originals within the serialization tolerance (half of the last stored
decimal place). -/
theorem C7_write_read_roundtrip (ps : List Vec3) :
    (readStructure (writeStructure ps)).length = ps.length
    ∧ ∀ (i : ℕ) (p q : Vec3), ps[i]? = some p →
        (readStructure (writeStructure ps))[i]? = some q →
        |q.1 - p.1| ≤ 1 / 2000000 ∧ |q.2.1 - p.2.1| ≤ 1 / 2000000
          ∧ |q.2.2 - p.2.2| ≤ 1 / 2000000 := by
  have hmap : readStructure (writeStructure ps) =
      ps.map (fun p => (readCoord (writeCoord p.1), readCoord (writeCoord p.2.1),
        readCoord (writeCoord p.2.2))) := by
    unfold readStructure writeStructure
    rw [List.map_map]
    rfl
  constructor
  · rw [hmap, List.length_map]
  · intro i p q hp hq
    rw [hmap, List.getElem?_map, hp] at hq
    simp only [Option.map_some'] at hq
    injection hq with hq'
    subst hq'
    exact ⟨readCoord_writeCoord p.1, readCoord_writeCoord p.2.1,
      readCoord_writeCoord p.2.2⟩

/-- Witness for claim C7 at a concrete one-atom structure. -/
theorem C7_witness :
    (readStructure (writeStructure [((1 : ℚ)/3, 0, 5/7)])).length =
      ([((1 : ℚ)/3, 0, 5/7)] : List Vec3).length
    ∧ (|(333333/1000000 : ℚ) - 1/3| ≤ 1 / 2000000
        ∧ |(0 : ℚ) - 0| ≤ 1 / 2000000
        ∧ |(714286/1000000 : ℚ) - 5/7| ≤ 1 / 2000000) :=
  ⟨(C7_write_read_roundtrip [((1 : ℚ)/3, 0, 5/7)]).1,
   (C7_write_read_roundtrip [((1 : ℚ)/3, 0, 5/7)]).2 0 ((1 : ℚ)/3, 0, 5/7)
     (333333/1000000, 0, 714286/1000000) rfl (by
       simp only [readStructure, writeStructure, List.map_cons, List.map_nil]
       rw [List.getElem?_cons_zero]
       unfold readCoord writeCoord
       rw [round_eq, round_eq, round_eq]
       norm_num)⟩

/-! Simulation output folder numbering. -/

/-- A McStas output folder name: the requested base name together with the
optional numeric suffix appended by the duplicate-run numbering policy. -/
abbrev Folder := String × Option ℕ

/-- The numeric suffixes already used with the given base name. -/
def usedIdxs (used : List Folder) (base : String) : List ℕ :=
  used.filterMap (fun f => if f.1 = base then f.2 else none)

/-- One past the largest used suffix. -/
def freshIdx (l : List ℕ) : ℕ := l.foldr max 0 + 1

/-- Modelled from the spec: the simulation runner's duplicate-run numbering
policy — "output folder (auto-incremented if present)".  With
`increment_folder_name=True`, when the requested folder already exists the run
uses the base name with a fresh numeric suffix instead of the existing folder.
The numbering logic lives inside McStasScript, not under src; it is modelled
from the spec's words. -/
def nextFolder (used : List Folder) (base : String) (increment : Bool) : Folder :=
  if increment ∧ (base, none) ∈ used then
    (base, some (freshIdx (usedIdxs used base)))
  else (base, none)

/-- The run writes its detector datasets into the chosen folder, appending it
to the folder list and touching nothing else. -/
def runSimFolders (used : List Folder) (base : String) : List Folder :=
  used ++ [nextFolder used base true]

lemma le_foldr_max (l : List ℕ) (x : ℕ) (h : x ∈ l) : x ≤ l.foldr max 0 := by
  induction l with
  | nil => cases h
  | cons a t ih =>
    rcases List.mem_cons.mp h with rfl | ht
    · exact le_max_left _ _
    · exact le_trans (ih ht) (le_max_right _ _)

lemma mem_usedIdxs {used : List Folder} {base : String} {k : ℕ}
    (h : (base, some k) ∈ used) : k ∈ usedIdxs used base := by
  unfold usedIdxs
  rw [List.mem_filterMap]
  exact ⟨(base, some k), h, by simp⟩

/-- Claim C8: when the runner is invoked with the duplicate-run numbering
policy enabled and the requested output folder already exists, the run writes
its datasets into a fresh auto-incremented folder: the chosen folder is not
among the existing ones (in particular it is not the requested folder, so
nothing is overwritten), and every existing folder survives the run. -/
theorem C8_increment_gives_fresh_folder (used : List Folder) (base : String)
    (h : (base, none) ∈ used) :
    nextFolder used base true ∉ used
    ∧ nextFolder used base true ≠ (base, none)
    ∧ ∀ f, f ∈ used → f ∈ runSimFolders used base := by
  have hval : nextFolder used base true = (base, some (freshIdx (usedIdxs used base))) := by
    unfold nextFolder
    rw [if_pos ⟨rfl, h⟩]
  refine ⟨?_, ?_, ?_⟩
  · rw [hval]
    intro hmem
    have hk := mem_usedIdxs hmem
    have hle := le_foldr_max _ _ hk
    simp only [freshIdx] at hle
    omega
  · rw [hval]
    intro heq
    simp at heq
  · intro f hf
    exact List.mem_append_left _ hf

/-- Witness for claim C8: with the single existing folder `mcstas_output` and
the same requested base name, the chosen folder is fresh. -/
theorem C8_witness :
    (("mcstas_output", (none : Option ℕ)) ∈ ([("mcstas_output", none)] : List Folder))
    ∧ nextFolder [("mcstas_output", none)] "mcstas_output" true ∉
        ([("mcstas_output", none)] : List Folder) :=
  ⟨by decide,
   (C8_increment_gives_fresh_folder [("mcstas_output", none)] "mcstas_output"
     (by decide)).1⟩

end AseNotebook
